import Mathlib

/-!
Verification of the credential and session-token lifecycle subsystem of the
medivuno healthcare server (Go / Gin / GORM).

The embedding mirrors, function by function:

* `internal/utils/jwt.go` — `generateAccessToken`, `generateRefreshToken`,
  `GenerateTokens`, `ValidateToken` (golang-jwt/v5 semantics: the keyfunc
  accepts any `*jwt.SigningMethodHMAC`, signature verification runs before
  claims validation, expiry requires `now < exp`).
* `internal/models/user.go` — `User.SetPassword` / `User.CheckPassword`
  over `golang.org/x/crypto/bcrypt`: `GenerateFromPassword` rejects inputs
  longer than 72 bytes, `CompareHashAndPassword` performs no length check;
  the key schedule cyclically consumes 72 bytes of the NUL-terminated
  password, so only that effective key material distinguishes passwords,
  and the digest is modelled as an injective image of it (one-wayness
  plays no role in the properties below).
* `internal/models/message.go` — the `RefreshToken` row (here
  `RefreshTokenRow`, to leave the name `refreshToken` for the handler).
* `internal/handlers/auth.go` — `Login`, `RefreshToken`, `Logout` as state
  transformers over an explicit store.  GORM calls become list operations:
  `First(where)` is `List.find?`, `Save` replaces the row with the same
  primary key, `Create` appends a fresh row.  Store writes that the Go code
  checks (or, in one telling case, ignores) take explicit failure flags so
  partial executions are expressible.

A JWT is modelled symbolically: a token records the algorithm named in its
header, its claims, and the key its signature was actually computed with;
serialization is canonical, so string equality of tokens is structural
equality here.

For the concurrent-refresh race, the `RefreshToken` handler is additionally
cut into its store round trips (`threadStep`): the validate/select/user
reads, the revoking `Save`, and the `Create` of the new row.  Reads are
grouped into one step — grouping adjacent reads loses no schedules relevant
to write/write races — and an interleaving of two handler instances is a
schedule of such steps.
-/

namespace Medivuno

/-- `models.Role` (user.go). -/
inductive Role where
  | admin
  | doctor
  | patient
  | user
deriving DecidableEq, Repr

/-- JWT signing algorithms as named by the `alg` header field.  `noAlg`
stands for `"none"`; `rs256`/`es256` represent the non-HMAC families. -/
inductive Alg where
  | hs256
  | hs384
  | hs512
  | rs256
  | es256
  | noAlg
deriving DecidableEq, Repr

/-- The keyfunc's check `token.Method.(*jwt.SigningMethodHMAC)` (jwt.go:80):
the HMAC *family*, not one pinned algorithm. -/
def Alg.isHMAC : Alg → Bool
  | .hs256 => true
  | .hs384 => true
  | .hs512 => true
  | _ => false

/-- `utils.Claims` (jwt.go): custom `user_id` and `role` claims plus the
registered claims the code sets (`exp`, `iat`, `sub`).  Times are unix
seconds. -/
structure JwtClaims where
  userID : String
  role : Role
  expiresAt : Nat
  issuedAt : Nat
  subject : String
deriving DecidableEq, Repr

/-- A signed JWT, symbolically: the algorithm its header declares, its
claims, and the key its signature was computed with.  The MAC is ideal:
a signature verifies under `key` exactly when `sigKey = key`. -/
structure Token where
  alg : Alg
  claims : JwtClaims
  sigKey : String
deriving DecidableEq, Repr

/-- Failure modes of `ValidateToken`, in the order golang-jwt/v5 hits them:
keyfunc rejection of a non-HMAC method, signature mismatch, then claim
(expiry) validation.  The Go function wraps each in one opaque
`failed to parse token` error. -/
inductive JwtError where
  | unexpectedSigningMethod
  | signatureInvalid
  | tokenExpired
deriving DecidableEq, Repr

/-- The spec's §7 error taxonomy, restricted to what `ValidateToken` can
produce: `TokenMalformed` covers "structurally invalid or wrong signing
key". -/
inductive SpecErrorKind where
  | tokenMalformed
  | tokenExpired
deriving DecidableEq, Repr

/-- How each `ValidateToken` failure surfaces in the spec's taxonomy. -/
def JwtError.toSpecKind : JwtError → SpecErrorKind
  | .unexpectedSigningMethod => .tokenMalformed
  | .signatureInvalid => .tokenMalformed
  | .tokenExpired => .tokenExpired

/-- The fields of `config.Config` the subsystem reads. -/
structure Config where
  jwtSecret : String
  jwtRefreshSecret : String
  jwtExpirationMinutes : Nat
  jwtRefreshExpirationHours : Nat
deriving DecidableEq, Repr

/-- `utils.ValidateToken` (jwt.go:77-95): keyfunc pins the HMAC family,
`ParseWithClaims` then verifies the signature and finally validates claims
(v5 requires `now < exp`; `exp = now` is expired). -/
def validateToken (tok : Token) (secretKey : String) (now : Nat) :
    Except JwtError JwtClaims :=
  if tok.alg.isHMAC = false then .error .unexpectedSigningMethod
  else if tok.sigKey ≠ secretKey then .error .signatureInvalid
  else if tok.claims.expiresAt ≤ now then .error .tokenExpired
  else .ok tok.claims

/-- Passwords are byte strings. -/
abbrev Password := List Nat

/-- Failure modes of the bcrypt calls the code makes. -/
inductive BcryptError where
  | passwordTooLong
  | mismatchedHashAndPassword
deriving DecidableEq, Repr

/-- A bcrypt hash: cost and salt are encoded in the output, and the digest
is an injective image of the effective key material `bcryptKeyStream`
(ideal hash — the claims below never need one-wayness, only which
passwords verify against which hashes). -/
structure BcryptHash where
  cost : Nat
  salt : Nat
  digest : Password
deriving DecidableEq, Repr

/-- `bcrypt.DefaultCost`. -/
def bcryptDefaultCost : Nat := 10

/-- The effective key material bcrypt derives from a password.  The
Blowfish key schedule consumes exactly 72 bytes, cyclically, from the
NUL-terminated password (`ckey := append(key, 0)`, kept for "bug
compatibility with C bcrypt implementations"), so two passwords verify
against the same hashes exactly when these 72-byte streams coincide: a
72-byte password collides with every extension of itself, and a shorter
password with its NUL-padded cyclic repetitions. -/
def bcryptKeyStream (password : Password) : Password :=
  (List.range 72).map
    (fun i => (password ++ [0]).getD (i % (password.length + 1)) 0)

/-- `bcrypt.GenerateFromPassword`: rejects passwords longer than 72 bytes
(`ErrPasswordTooLong`) — this length check exists only here, not in
`CompareHashAndPassword` — and otherwise hashes the effective key material
under a fresh salt (here an explicit argument standing for the random
salt). -/
def generateFromPassword (password : Password) (cost salt : Nat) :
    Except BcryptError BcryptHash :=
  if 72 < password.length then .error .passwordTooLong
  else .ok ⟨cost, salt, bcryptKeyStream password⟩

/-- `bcrypt.CompareHashAndPassword`: re-runs bcrypt on the candidate with
the hash's cost and salt and compares digests.  No length check here: an
overlong candidate is accepted and compared by its truncated key
material. -/
def compareHashAndPassword (h : BcryptHash) (password : Password) :
    Except BcryptError Unit :=
  if h.digest = bcryptKeyStream password then .ok ()
  else .error .mismatchedHashAndPassword

/-- `models.User`, restricted to the fields the subsystem reads. -/
structure User where
  id : String
  email : String
  password : BcryptHash
  role : Role
deriving DecidableEq, Repr

/-- `User.SetPassword` (user.go:63-70). -/
def User.setPassword (u : User) (password : Password) (salt : Nat) :
    Except BcryptError User :=
  match generateFromPassword password bcryptDefaultCost salt with
  | .error e => .error e
  | .ok h => .ok { u with password := h }

/-- `User.CheckPassword` (user.go:73-76): true exactly when
`CompareHashAndPassword` returns no error. -/
def User.checkPassword (u : User) (password : Password) : Bool :=
  match compareHashAndPassword u.password password with
  | .ok _ => true
  | .error _ => false

/-- `generateAccessToken` (jwt.go:36-54): HS256 over the access secret,
`exp = now + JWTExpirationMinutes` minutes. -/
def generateAccessToken (u : User) (cfg : Config) (now : Nat) : Token :=
  { alg := .hs256
    claims :=
      { userID := u.id
        role := u.role
        expiresAt := now + cfg.jwtExpirationMinutes * 60
        issuedAt := now
        subject := u.id }
    sigKey := cfg.jwtSecret }

/-- `generateRefreshToken` (jwt.go:56-74): HS256 over the refresh secret,
`exp = now + JWTRefreshExpirationHours` hours. -/
def generateRefreshToken (u : User) (cfg : Config) (now : Nat) : Token :=
  { alg := .hs256
    claims :=
      { userID := u.id
        role := u.role
        expiresAt := now + cfg.jwtRefreshExpirationHours * 3600
        issuedAt := now
        subject := u.id }
    sigKey := cfg.jwtRefreshSecret }

/-- `models.RefreshToken` (message.go): one ledger row.  `rowID` is the
primary key GORM updates by on `Save`. -/
structure RefreshTokenRow where
  rowID : Nat
  userID : String
  token : Token
  expiresAt : Nat
  isRevoked : Bool
  createdAt : Nat
deriving DecidableEq, Repr

/-- The shared store: the user table, the refresh-token table, and the next
fresh primary key. -/
structure ServerState where
  users : List User
  rows : List RefreshTokenRow
  nextID : Nat
deriving DecidableEq, Repr

/-- `DB.Where("email = ?").First` (auth.go:93). -/
def findUserByEmail (users : List User) (email : String) : Option User :=
  users.find? (fun u => u.email == email)

/-- `DB.First(&user, "id = ?")` (auth.go:186). -/
def findUserByID (users : List User) (id : String) : Option User :=
  users.find? (fun u => u.id == id)

/-- The refresh handler's validity select (auth.go:175):
`token = ? AND user_id = ? AND is_revoked = false AND expires_at > now`. -/
def findValidRefreshRow (rows : List RefreshTokenRow) (tok : Token)
    (uid : String) (now : Nat) : Option RefreshTokenRow :=
  rows.find? (fun r =>
    r.token == tok && r.userID == uid && r.isRevoked == false &&
      decide (now < r.expiresAt))

/-- The logout handler's select (auth.go:253):
`token = ? AND is_revoked = false` — the token value and revocation state
only, never the caller's identity. -/
def findUnrevokedRow (rows : List RefreshTokenRow) (tok : Token) :
    Option RefreshTokenRow :=
  rows.find? (fun r => r.token == tok && r.isRevoked == false)

/-- `DB.Save(&row)`: an unconditional update by primary key — every row
carrying this `rowID` becomes `updated`, whatever its current contents. -/
def saveRow (rows : List RefreshTokenRow) (updated : RefreshTokenRow) :
    List RefreshTokenRow :=
  rows.map (fun r => if r.rowID == updated.rowID then updated else r)

/-- `DB.Create(&models.RefreshToken{...})`: insert a fresh active row. -/
def createRow (st : ServerState) (uid : String) (tok : Token)
    (expiresAt now : Nat) : ServerState :=
  { st with
      rows := st.rows ++ [⟨st.nextID, uid, tok, expiresAt, false, now⟩]
      nextID := st.nextID + 1 }

/-- Outcome of `AuthHandler.Login`, after request binding. -/
inductive LoginResult where
  | success (accessToken refreshToken : Token) (user : User)
  | unauthorized (message : String)
deriving DecidableEq, Repr

/-- `AuthHandler.Login` (auth.go:86-140), after request binding.  Store
reads and writes that the handler checks are modelled as succeeding; both
the email-not-found path and the password-mismatch path surface the same
`401 "Invalid email or password"`. -/
def login (cfg : Config) (st : ServerState) (email : String) (pwd : Password)
    (now : Nat) : LoginResult × ServerState :=
  match findUserByEmail st.users email with
  | none => (.unauthorized "Invalid email or password", st)
  | some user =>
    if user.checkPassword pwd = false then
      (.unauthorized "Invalid email or password", st)
    else
      let accessToken := generateAccessToken user cfg now
      let refreshTokenString := generateRefreshToken user cfg now
      let st1 := createRow st user.id refreshTokenString
        (now + cfg.jwtRefreshExpirationHours * 3600) now
      (.success accessToken refreshTokenString user, st1)

/-- Outcome of `AuthHandler.RefreshToken`. -/
inductive RefreshResult where
  | success (accessToken refreshToken : Token)
  | unauthorized (message : String)
  | serverError (message : String)
deriving DecidableEq, Repr

/-- Whether a refresh outcome handed the caller a new pair. -/
def RefreshResult.isSuccess : RefreshResult → Bool
  | .success _ _ => true
  | _ => false

/-- `AuthHandler.RefreshToken` (auth.go:154-229), after cookie/body
extraction.  The sequence is exactly the handler's: validate signature,
select the live row, load the user, `Save` the row with `IsRevoked = true`
(the handler discards this call's error — `saveRevokeFails` makes that
visible), generate the new pair (`generateFails`), `Create` the new row
(`createFails`), answer. -/
def refreshToken (cfg : Config) (st : ServerState) (presented : Token)
    (now : Nat) (saveRevokeFails generateFails createFails : Bool) :
    RefreshResult × ServerState :=
  match validateToken presented cfg.jwtRefreshSecret now with
  | .error _ =>
    (.unauthorized "Invalid refresh token structure or signature", st)
  | .ok claims =>
    match findValidRefreshRow st.rows presented claims.userID now with
    | none => (.unauthorized "Refresh token not found, expired, or revoked", st)
    | some storedToken =>
      match findUserByID st.users claims.userID with
      | none => (.serverError "Failed to find user associated with token", st)
      | some user =>
        let st1 :=
          if saveRevokeFails then st
          else { st with rows := saveRow st.rows { storedToken with isRevoked := true } }
        if generateFails then (.serverError "Failed to generate new tokens", st1)
        else
          let newAccessToken := generateAccessToken user cfg now
          let newRefreshTokenString := generateRefreshToken user cfg now
          if createFails then
            (.serverError "Failed to store new refresh token", st1)
          else
            let st2 := createRow st1 user.id newRefreshTokenString
              (now + cfg.jwtRefreshExpirationHours * 3600) now
            (.success newAccessToken newRefreshTokenString, st2)

/-- Outcome of `AuthHandler.Logout`. -/
inductive LogoutResult where
  | success (message : String)
  | badRequest (message : String)
deriving DecidableEq, Repr

/-- Whether a logout outcome is a success response. -/
def LogoutResult.isSuccess : LogoutResult → Bool
  | .success _ => true
  | _ => false

/-- `AuthHandler.Logout` (auth.go:237-283), after request binding.  `none`
stands for an empty `refreshToken` field (the 400 path); otherwise the
handler selects by token value and revocation state alone — it never reads
the caller's identity — and a missing or already-revoked row is itself a
success.  On a hit it `Save`s the row with `IsRevoked = true` and
`ExpiresAt = time.Now()` (auth.go:264-265). -/
def logout (st : ServerState) (req : Option Token) (now : Nat) :
    LogoutResult × ServerState :=
  match req with
  | none => (.badRequest "Refresh token is required", st)
  | some tok =>
    match findUnrevokedRow st.rows tok with
    | none =>
      (.success "Logout successful (token not found or already invalid).", st)
    | some storedToken =>
      let st1 :=
        { st with
            rows := saveRow st.rows
              { storedToken with isRevoked := true, expiresAt := now } }
      (.success "Logout successful. Refresh token has been invalidated.", st1)

/-- Where one in-flight `RefreshToken` handler stands, between store round
trips: not yet started; past the reads (signature validated, live row
selected, user loaded — the fetched row and user are handler-local state,
exactly GORM's in-memory structs); past the revoking `Save`; finished. -/
inductive RefreshPhase where
  | ready
  | fetched (storedToken : RefreshTokenRow) (user : User)
  | revokedOld (user : User)
  | finished (result : RefreshResult)
deriving DecidableEq, Repr

/-- One in-flight `RefreshToken` request: its presented token, its
wall-clock time (read once per operation), and its phase. -/
structure RefreshThread where
  presented : Token
  now : Nat
  phase : RefreshPhase
deriving DecidableEq, Repr

/-- One store round trip of the `RefreshToken` handler (write failures off,
as in the happy path).  The grain is the handler's own: `ready → fetched`
performs the reads, `fetched → revokedOld` the unconditional `Save`,
`revokedOld → finished` the token generation plus `Create`. -/
def threadStep (cfg : Config) (t : RefreshThread) (st : ServerState) :
    RefreshThread × ServerState :=
  match t.phase with
  | .ready =>
    match validateToken t.presented cfg.jwtRefreshSecret t.now with
    | .error _ =>
      ({ t with phase := RefreshPhase.finished (RefreshResult.unauthorized "Invalid refresh token structure or signature") }, st)
    | .ok claims =>
      match findValidRefreshRow st.rows t.presented claims.userID t.now with
      | none =>
        ({ t with phase := RefreshPhase.finished (RefreshResult.unauthorized "Refresh token not found, expired, or revoked") }, st)
      | some storedToken =>
        match findUserByID st.users claims.userID with
        | none =>
          ({ t with phase := RefreshPhase.finished (RefreshResult.serverError "Failed to find user associated with token") }, st)
        | some user => ({ t with phase := .fetched storedToken user }, st)
  | .fetched storedToken user =>
    ({ t with phase := .revokedOld user },
     { st with rows := saveRow st.rows { storedToken with isRevoked := true } })
  | .revokedOld user =>
    let newAccessToken := generateAccessToken user cfg t.now
    let newRefreshTokenString := generateRefreshToken user cfg t.now
    ({ t with phase := RefreshPhase.finished (RefreshResult.success newAccessToken newRefreshTokenString) },
     createRow st user.id newRefreshTokenString
       (t.now + cfg.jwtRefreshExpirationHours * 3600) t.now)
  | .finished _ => (t, st)

/-- Two concurrent `RefreshToken` requests over the shared store. -/
structure RacePair where
  threadA : RefreshThread
  threadB : RefreshThread
  state : ServerState
deriving DecidableEq, Repr

/-- Advance one of the two requests by one store round trip: `false` steps
thread A, `true` steps thread B. -/
def raceStep (cfg : Config) (p : RacePair) (choice : Bool) : RacePair :=
  if choice then
    let (t', st') := threadStep cfg p.threadB p.state
    { p with threadB := t', state := st' }
  else
    let (t', st') := threadStep cfg p.threadA p.state
    { p with threadA := t', state := st' }

/-- Run an interleaving: the schedule lists which request performs each
successive store round trip. -/
def runSchedule (cfg : Config) (sched : List Bool) (p : RacePair) : RacePair :=
  sched.foldl (raceStep cfg) p

/-! ### Concrete fixtures

A deployment configuration, one registered patient, and the store as it
stands right after her login: one live refresh token, issued at time 100
with the configured 168-hour TTL. -/

/-- A concrete deployment configuration (15-minute access TTL, 168-hour
refresh TTL, distinct signing secrets). -/
def cfgT : Config :=
  { jwtSecret := "access-secret"
    jwtRefreshSecret := "refresh-secret"
    jwtExpirationMinutes := 15
    jwtRefreshExpirationHours := 168 }

/-- Alice's stored bcrypt hash: the hash of the byte password `[1, 2, 3]`
under salt 0. -/
def aliceHash : BcryptHash :=
  ⟨bcryptDefaultCost, 0, bcryptKeyStream [1, 2, 3]⟩

/-- A registered patient. -/
def alice : User :=
  { id := "alice-id"
    email := "alice@example.com"
    password := aliceHash
    role := .patient }

/-- The refresh token Alice's login at time 100 issued. -/
def tok0 : Token := generateRefreshToken alice cfgT 100

/-- The ledger row recording `tok0`, live and expiring in 168 hours. -/
def row0 : RefreshTokenRow :=
  { rowID := 1
    userID := "alice-id"
    token := tok0
    expiresAt := 100 + 168 * 3600
    isRevoked := false
    createdAt := 100 }

/-- The store right after Alice's login. -/
def st0 : ServerState := ⟨[alice], [row0], 2⟩

/-- A refresh request presenting `tok0`, clock read at 1000. -/
def raceA : RefreshThread := ⟨tok0, 1000, .ready⟩

/-- A duplicate refresh request presenting the same `tok0`, clock read one
second later. -/
def raceB : RefreshThread := ⟨tok0, 1001, .ready⟩

/-- The interleaving `A` reads, `B` reads, `A` revokes, `A` inserts, `B`
revokes, `B` inserts — legal, since nothing in the handler serializes the
select against the later `Save`. -/
def raceSchedule : List Bool := [false, true, false, false, true, true]

/-- The run of the two duplicate refresh requests under `raceSchedule`. -/
def raceFinal : RacePair := runSchedule cfgT raceSchedule ⟨raceA, raceB, st0⟩

/-- The store right after a login of `u` at time `t0`: one live refresh row
recording the token that login issued, expiring after the configured
refresh TTL. -/
def postLoginState (u : User) (cfg : Config) (t0 : Nat) : ServerState :=
  ⟨[u], [⟨1, u.id, generateRefreshToken u cfg t0,
    t0 + cfg.jwtRefreshExpirationHours * 3600, false, t0⟩], 2⟩

/-!
## Theorems

First the library of facts about the store primitives and the validity
select, then one theorem per specification claim.
-/

/-- Unpacking the refresh handler's validity select: a hit is a stored row,
live and unexpired, carrying the presented token. -/
theorem findValidRefreshRow_mem {rows : List RefreshTokenRow} {tok : Token}
    {uid : String} {now : Nat} {r : RefreshTokenRow}
    (h : findValidRefreshRow rows tok uid now = some r) :
    r ∈ rows ∧ r.token = tok ∧ r.isRevoked = false ∧ now < r.expiresAt := by
  have hm := List.mem_of_find?_eq_some h
  have hp := List.find?_some h
  simp only [Bool.and_eq_true, beq_iff_eq, decide_eq_true_eq] at hp
  exact ⟨hm, hp.1.1.1, hp.1.2, hp.2⟩

/-- A `Save` never changes the number of ledger rows. -/
theorem saveRow_length (rows : List RefreshTokenRow) (r : RefreshTokenRow) :
    (saveRow rows r).length = rows.length := by
  simp [saveRow]

/-- After a `Save` of a revoked struct, every row carrying its primary key
is revoked. -/
theorem saveRow_revokes (rows : List RefreshTokenRow) (r : RefreshTokenRow)
    (h : r.isRevoked = true) :
    ∀ row ∈ saveRow rows r, row.rowID = r.rowID → row.isRevoked = true := by
  intro row hrow hid
  simp only [saveRow, List.mem_map] at hrow
  obtain ⟨orig, _, horig⟩ := hrow
  by_cases hc : orig.rowID == r.rowID
  · rw [if_pos hc] at horig
    rw [← horig, h]
  · rw [if_neg hc] at horig
    exact absurd (beq_iff_eq.mpr (horig ▸ hid)) hc

/-- Every row of a post-`Save` ledger is the saved struct or an untouched
original. -/
theorem mem_saveRow {rows : List RefreshTokenRow} {upd r' : RefreshTokenRow}
    (h : r' ∈ saveRow rows upd) : r' = upd ∨ r' ∈ rows := by
  simp only [saveRow, List.mem_map] at h
  obtain ⟨orig, hmem, horig⟩ := h
  by_cases hc : orig.rowID == upd.rowID
  · rw [if_pos hc] at horig
    exact Or.inl horig.symm
  · rw [if_neg hc] at horig
    exact Or.inr (horig ▸ hmem)

/-- A `Save` deletes nothing: every pre-state row still has a row under its
primary key afterwards. -/
theorem saveRow_surjects {rows : List RefreshTokenRow} (upd : RefreshTokenRow)
    {r : RefreshTokenRow} (h : r ∈ rows) :
    ∃ r' ∈ saveRow rows upd, r'.rowID = r.rowID := by
  by_cases hc : r.rowID == upd.rowID
  · refine ⟨upd, ?_, (beq_iff_eq.mp hc).symm⟩
    simp only [saveRow, List.mem_map]
    exact ⟨r, h, if_pos hc⟩
  · refine ⟨r, ?_, rfl⟩
    simp only [saveRow, List.mem_map]
    exact ⟨r, h, if_neg hc⟩

/-- A refresh token the codec just issued verifies under the refresh secret
at any time before its expiry, recovering its own claims. -/
theorem validateToken_refresh_ok (u : User) (cfg : Config) (t n : Nat)
    (h : n < t + cfg.jwtRefreshExpirationHours * 3600) :
    validateToken (generateRefreshToken u cfg t) cfg.jwtRefreshSecret n
      = .ok (generateRefreshToken u cfg t).claims := by
  simp [validateToken, generateRefreshToken, Alg.isHMAC]
  omega

/-- Two members of a list of length at most one coincide. -/
theorem mem_eq_of_length_le_one {α : Type} {l : List α} (h : l.length ≤ 1)
    {a b : α} (ha : a ∈ l) (hb : b ∈ l) : a = b := by
  match l with
  | [] => cases ha
  | [x] =>
    simp only [List.mem_singleton] at ha hb
    rw [ha, hb]
  | x :: y :: t => simp at h

/-- Logout with a nonempty token always answers success: a missing or
already-revoked row is itself the success path (auth.go:254-256). -/
theorem logout_always_success (st : ServerState) (T : Token) (now : Nat) :
    (logout st (some T) now).fst.isSuccess = true := by
  rw [logout]
  split <;> simp [LogoutResult.isSuccess]

/-- After a logout presenting `T`, no row carrying `T` is live — provided
`T` occupies at most one ledger row (the handler revokes only the first
match). -/
theorem logout_revokes_all (st : ServerState) (T : Token) (now : Nat)
    (huniq : (st.rows.filter (fun r => r.token == T)).length ≤ 1) :
    ∀ row ∈ (logout st (some T) now).snd.rows,
      row.token = T → row.isRevoked = true := by
  intro row hrow htok
  set res := logout st (some T) now with hres
  rw [logout] at hres
  split at hres
  · rename_i hf
    rw [hres] at hrow
    have hnp := List.find?_eq_none.mp hf row hrow
    simp only [Bool.and_eq_true, beq_iff_eq, not_and] at hnp
    by_cases hr : row.isRevoked = true
    · exact hr
    · rw [Bool.not_eq_true] at hr
      exact absurd hr (hnp htok)
  · rename_i storedToken hf
    rw [hres] at hrow
    have hpred := List.find?_some hf
    simp only [Bool.and_eq_true, beq_iff_eq] at hpred
    have hstm : storedToken ∈ st.rows := List.mem_of_find?_eq_some hf
    simp only [saveRow, List.mem_map] at hrow
    obtain ⟨orig, hmem, horig⟩ := hrow
    by_cases hc : orig.rowID == storedToken.rowID
    · rw [if_pos hc] at horig
      rw [← horig]
    · rw [if_neg hc] at horig
      exfalso
      have horigT : orig.token = T := by rw [horig, htok]
      have h1 : orig ∈ st.rows.filter (fun r => r.token == T) :=
        List.mem_filter.mpr ⟨hmem, by simp [horigT]⟩
      have h2 : storedToken ∈ st.rows.filter (fun r => r.token == T) :=
        List.mem_filter.mpr ⟨hstm, by simp [hpred.1]⟩
      have heq := mem_eq_of_length_le_one huniq h1 h2
      apply hc
      rw [heq]
      exact beq_self_eq_true _

/-- C1: the claim asserts that of two concurrent `refresh(T)` calls exactly
one can succeed, the revocation being an atomic conditional read-modify-
write.  The handler instead runs a plain `First` followed by an
unconditional `Save` by primary key (auth.go:175 and 192-193), so the store
serializes nothing: under the interleaving `raceSchedule`, both duplicate
requests on the one live token `tok0` pass validation, both finish with a
success response, the two new refresh tokens differ from each other and
from `tok0`, and both are simultaneously valid in the final ledger — two
valid new token pairs from one input token. -/
theorem concurrentRefresh_double_success :
    raceFinal.threadA.phase =
      .finished (.success (generateAccessToken alice cfgT 1000)
        (generateRefreshToken alice cfgT 1000)) ∧
    raceFinal.threadB.phase =
      .finished (.success (generateAccessToken alice cfgT 1001)
        (generateRefreshToken alice cfgT 1001)) ∧
    generateRefreshToken alice cfgT 1000 ≠ generateRefreshToken alice cfgT 1001 ∧
    generateRefreshToken alice cfgT 1000 ≠ tok0 ∧
    generateRefreshToken alice cfgT 1001 ≠ tok0 ∧
    (findValidRefreshRow raceFinal.state.rows
      (generateRefreshToken alice cfgT 1000) "alice-id" 1001).isSome = true ∧
    (findValidRefreshRow raceFinal.state.rows
      (generateRefreshToken alice cfgT 1001) "alice-id" 1001).isSome = true := by
  decide

/-- C4: `ValidateToken` rejects every token whose header names a non-HMAC
algorithm (the keyfunc's family check), and every token whose signature was
not computed with the presented key fails — with an error that surfaces as
the spec's `TokenMalformed` kind, never as expiry — because golang-jwt/v5
verifies the signature before validating claims. -/
theorem validateToken_pins_hmac_and_key (tok : Token) (key : String) (now : Nat) :
    (tok.alg.isHMAC = false →
      validateToken tok key now = .error .unexpectedSigningMethod) ∧
    (tok.sigKey ≠ key →
      ∃ e, validateToken tok key now = .error e ∧
        e.toSpecKind = .tokenMalformed) := by
  constructor
  · intro h
    simp [validateToken, h]
  · intro h
    by_cases halg : tok.alg.isHMAC = false
    · exact ⟨.unexpectedSigningMethod, by simp [validateToken, halg], rfl⟩
    · exact ⟨.signatureInvalid, by simp [validateToken, halg, h], rfl⟩

/-- Witness for C4: a token carrying `alg = RS256` is rejected as an
unexpected signing method even though its key matches, and an HS256 token
signed with the wrong key fails with the `TokenMalformed` kind. -/
theorem validateToken_pins_hmac_and_key_witness :
    ((Token.mk .rs256 tok0.claims "refresh-secret").alg.isHMAC = false →
      validateToken (Token.mk .rs256 tok0.claims "refresh-secret")
        "refresh-secret" 200 = .error .unexpectedSigningMethod) ∧
    ((Token.mk .hs256 tok0.claims "wrong-secret").sigKey ≠ "refresh-secret" →
      ∃ e, validateToken (Token.mk .hs256 tok0.claims "wrong-secret")
        "refresh-secret" 200 = .error e ∧ e.toSpecKind = .tokenMalformed) :=
  ⟨(validateToken_pins_hmac_and_key (Token.mk .rs256 tok0.claims "refresh-secret")
      "refresh-secret" 200).1,
   (validateToken_pins_hmac_and_key (Token.mk .hs256 tok0.claims "wrong-secret")
      "refresh-secret" 200).2⟩

/-- C5: the login handler collapses "email not found" and "password
mismatch" into the one externally observable outcome — the same
`401 "Invalid email or password"` response (auth.go:93-105). -/
theorem login_enumeration_resistance (cfg : Config) (st : ServerState)
    (e1 e2 : String) (p1 p2 : Password) (now1 now2 : Nat) (u : User)
    (h1 : findUserByEmail st.users e1 = none)
    (h2 : findUserByEmail st.users e2 = some u)
    (h3 : u.checkPassword p2 = false) :
    (login cfg st e1 p1 now1).fst = .unauthorized "Invalid email or password" ∧
    (login cfg st e2 p2 now2).fst = .unauthorized "Invalid email or password" ∧
    (login cfg st e1 p1 now1).fst = (login cfg st e2 p2 now2).fst := by
  have hA : (login cfg st e1 p1 now1).fst =
      .unauthorized "Invalid email or password" := by
    simp [login, h1]
  have hB : (login cfg st e2 p2 now2).fst =
      .unauthorized "Invalid email or password" := by
    simp [login, h2, h3]
  exact ⟨hA, hB, hA.trans hB.symm⟩

/-- Witness for C5: against the post-login store, a login for an unknown
email and a login for Alice's email with the wrong password produce the
identical unauthorized outcome. -/
theorem login_enumeration_resistance_witness :
    findUserByEmail st0.users "nonexistent@x.com" = none ∧
    findUserByEmail st0.users "alice@example.com" = some alice ∧
    alice.checkPassword [9] = false ∧
    ((login cfgT st0 "nonexistent@x.com" [7] 500).fst =
        .unauthorized "Invalid email or password" ∧
      (login cfgT st0 "alice@example.com" [9] 501).fst =
        .unauthorized "Invalid email or password" ∧
      (login cfgT st0 "nonexistent@x.com" [7] 500).fst =
        (login cfgT st0 "alice@example.com" [9] 501).fst) :=
  ⟨by decide, by decide, by decide,
   login_enumeration_resistance cfgT st0 "nonexistent@x.com" "alice@example.com"
     [7] [9] 500 501 alice (by decide) (by decide) (by decide)⟩

/-- C6: verifying an access token with the access key, at any time before
its expiry, succeeds and recovers the claims it was issued with — whose
subject and `user_id` are the identity's id and whose role is the
identity's role. -/
theorem access_token_roundtrip (u : User) (cfg : Config) (now t : Nat)
    (h : t < now + cfg.jwtExpirationMinutes * 60) :
    validateToken (generateAccessToken u cfg now) cfg.jwtSecret t =
      .ok (generateAccessToken u cfg now).claims ∧
    (generateAccessToken u cfg now).claims.subject = u.id ∧
    (generateAccessToken u cfg now).claims.userID = u.id ∧
    (generateAccessToken u cfg now).claims.role = u.role := by
  refine ⟨?_, rfl, rfl, rfl⟩
  simp only [validateToken, generateAccessToken, Alg.isHMAC]
  simp
  omega

/-- Witness for C6: Alice's access token issued at time 1000 verifies at
time 1000 and carries her id and role. -/
theorem access_token_roundtrip_witness :
    1000 < 1000 + cfgT.jwtExpirationMinutes * 60 ∧
    (validateToken (generateAccessToken alice cfgT 1000) cfgT.jwtSecret 1000 =
        .ok (generateAccessToken alice cfgT 1000).claims ∧
      (generateAccessToken alice cfgT 1000).claims.subject = alice.id ∧
      (generateAccessToken alice cfgT 1000).claims.userID = alice.id ∧
      (generateAccessToken alice cfgT 1000).claims.role = alice.role) :=
  ⟨by decide, access_token_roundtrip alice cfgT 1000 1000 (by decide)⟩

/-- C9 counterexample: the claim's two universal quantifications both fail
on the real bcrypt.  `GenerateFromPassword` rejects the 73-byte password
`aaa…a`, so `SetPassword` produces no hash the round trip could be stated
on; and the key schedule reads only the first 72 bytes of the
NUL-terminated password, so hashing the 71-byte password `aa…a` and then
checking the distinct 72-byte candidate `aa…a ++ [0]` — both inside the
length bound — succeeds: `checkPassword(Pd, hashPassword(P)) = true` with
`Pd ≠ P`. -/
theorem bcrypt_truncation_collision :
    generateFromPassword (List.replicate 73 97) bcryptDefaultCost 0
      = .error .passwordTooLong ∧
    (List.replicate 71 97 ++ [0] : Password) ≠ List.replicate 71 97 ∧
    alice.setPassword (List.replicate 71 97) 0
      = .ok { alice with password :=
          ⟨bcryptDefaultCost, 0, bcryptKeyStream (List.replicate 71 97)⟩ } ∧
    User.checkPassword
      { alice with password :=
          ⟨bcryptDefaultCost, 0, bcryptKeyStream (List.replicate 71 97)⟩ }
      (List.replicate 71 97 ++ [0]) = true :=
  ⟨by rfl, by decide, by rfl, by decide⟩

/-- C9 amended: for every password `P` of at most 72 bytes the round trip
holds — `SetPassword` succeeds and `CheckPassword` accepts `P` — and a
candidate is rejected whenever bcrypt's effective key material
distinguishes it from `P`.  Distinctness of the plaintexts alone is not
enough: a candidate whose 72-byte key stream coincides with `P`'s (a
truncation or NUL-padding collision, see the counterexample) verifies. -/
theorem password_roundtrip_bounded (u : User) (P Pd : Password) (salt : Nat)
    (hlen : P.length ≤ 72)
    (hdiff : bcryptKeyStream Pd ≠ bcryptKeyStream P) :
    ∃ u', u.setPassword P salt = .ok u' ∧
      u'.checkPassword P = true ∧ u'.checkPassword Pd = false := by
  refine ⟨{ u with password := ⟨bcryptDefaultCost, salt, bcryptKeyStream P⟩ },
    ?_, ?_, ?_⟩
  · simp [User.setPassword, generateFromPassword, Nat.not_lt.mpr hlen]
  · simp [User.checkPassword, compareHashAndPassword]
  · simp [User.checkPassword, compareHashAndPassword, Ne.symm hdiff]

/-- Witness for C9 amended: the two-byte password `[1, 2]` round-trips on
Alice's record, and the candidate `[3]`, whose key material differs, is
rejected. -/
theorem password_roundtrip_bounded_witness :
    ([1, 2] : Password).length ≤ 72 ∧
    bcryptKeyStream [3] ≠ bcryptKeyStream [1, 2] ∧
    ∃ u', alice.setPassword [1, 2] 0 = .ok u' ∧
      u'.checkPassword [1, 2] = true ∧ u'.checkPassword [3] = false :=
  ⟨by decide, by decide,
   password_roundtrip_bounded alice [1, 2] [3] 0 (by decide) (by decide)⟩

/-- C10: logout matches on token value and revocation state only.  For any
store holding an unrevoked row carrying the presented token — whoever its
owning identity is, and with no hypothesis tying it to any caller — the
handler answers success and revokes the first such row; the selected row is
characterized by its token and revocation state alone. -/
theorem logout_ignores_ownership (st : ServerState) (tok : Token) (now : Nat)
    (r : RefreshTokenRow) (hmem : r ∈ st.rows) (htok : r.token = tok)
    (hrev : r.isRevoked = false) :
    (logout st (some tok) now).fst.isSuccess = true ∧
    ∃ r', findUnrevokedRow st.rows tok = some r' ∧ r'.token = tok ∧
      r'.isRevoked = false ∧
      ∀ row ∈ (logout st (some tok) now).snd.rows,
        row.rowID = r'.rowID → row.isRevoked = true := by
  have hsome : (findUnrevokedRow st.rows tok).isSome = true := by
    apply List.find?_isSome.mpr
    exact ⟨r, hmem, by simp [htok, hrev]⟩
  obtain ⟨r', hfind⟩ := Option.isSome_iff_exists.mp hsome
  have hpred := List.find?_some hfind
  have hrt : r'.token = tok := by
    simpa using (Bool.and_elim_left hpred)
  have hrr : r'.isRevoked = false := by
    have := Bool.and_elim_right hpred
    simpa using this
  refine ⟨?_, r', hfind, hrt, hrr, ?_⟩
  · simp [logout, findUnrevokedRow] at hfind ⊢
    simp [hfind, LogoutResult.isSuccess]
  · intro row hrow hid
    simp only [logout, findUnrevokedRow] at hrow
    rw [show st.rows.find? (fun r => r.token == tok && r.isRevoked == false) = some r' from hfind] at hrow
    simp only [saveRow, List.mem_map] at hrow
    obtain ⟨orig, _, horig⟩ := hrow
    by_cases hc : orig.rowID == r'.rowID
    · rw [if_pos hc] at horig
      rw [← horig]
    · rw [if_neg hc] at horig
      exfalso
      apply hc
      rw [horig]
      exact beq_iff_eq.mpr hid

/-- Witness for C10: in the post-login store, a logout presenting Alice's
token succeeds and revokes her row — the handler never saw a caller
identity to check it against. -/
theorem logout_ignores_ownership_witness :
    row0 ∈ st0.rows ∧ row0.token = tok0 ∧ row0.isRevoked = false ∧
    ((logout st0 (some tok0) 500).fst.isSuccess = true ∧
      ∃ r', findUnrevokedRow st0.rows tok0 = some r' ∧ r'.token = tok0 ∧
        r'.isRevoked = false ∧
        ∀ row ∈ (logout st0 (some tok0) 500).snd.rows,
          row.rowID = r'.rowID → row.isRevoked = true) :=
  ⟨by decide, by decide, by decide,
   logout_ignores_ownership st0 tok0 500 row0 (by decide) (by decide) (by decide)⟩

/-- C2: sequential single-use rotation.  From the post-login store, a first
refresh presenting the login-issued token `T` (inside its TTL, at a time
strictly after issuance) succeeds and returns a fresh refresh token
distinct from `T`; a second refresh presenting `T` again fails with the
handler's unauthorized not-found/expired/revoked response; and a refresh
presenting the new token succeeds. -/
theorem refresh_single_use (u : User) (cfg : Config) (t0 t1 t2 t3 : Nat)
    (h01 : t0 < t1)
    (hT1 : t1 < t0 + cfg.jwtRefreshExpirationHours * 3600)
    (hT2 : t2 < t0 + cfg.jwtRefreshExpirationHours * 3600)
    (hT3 : t3 < t1 + cfg.jwtRefreshExpirationHours * 3600) :
    (refreshToken cfg (postLoginState u cfg t0) (generateRefreshToken u cfg t0)
        t1 false false false).fst
      = .success (generateAccessToken u cfg t1) (generateRefreshToken u cfg t1) ∧
    generateRefreshToken u cfg t1 ≠ generateRefreshToken u cfg t0 ∧
    (refreshToken cfg
        (refreshToken cfg (postLoginState u cfg t0)
          (generateRefreshToken u cfg t0) t1 false false false).snd
        (generateRefreshToken u cfg t0) t2 false false false).fst
      = .unauthorized "Refresh token not found, expired, or revoked" ∧
    (refreshToken cfg
        (refreshToken cfg (postLoginState u cfg t0)
          (generateRefreshToken u cfg t0) t1 false false false).snd
        (generateRefreshToken u cfg t1) t3 false false false).fst.isSuccess
      = true := by
  have hne : generateRefreshToken u cfg t1 ≠ generateRefreshToken u cfg t0 := by
    intro h
    have h2 := congrArg (fun tk => tk.claims.issuedAt) h
    simp [generateRefreshToken] at h2
    omega
  have huid0 : (generateRefreshToken u cfg t0).claims.userID = u.id := rfl
  have huid1 : (generateRefreshToken u cfg t1).claims.userID = u.id := rfl
  have hr1 : refreshToken cfg (postLoginState u cfg t0)
      (generateRefreshToken u cfg t0) t1 false false false
      = (.success (generateAccessToken u cfg t1) (generateRefreshToken u cfg t1),
         ⟨[u],
          [⟨1, u.id, generateRefreshToken u cfg t0,
             t0 + cfg.jwtRefreshExpirationHours * 3600, true, t0⟩,
           ⟨2, u.id, generateRefreshToken u cfg t1,
             t1 + cfg.jwtRefreshExpirationHours * 3600, false, t1⟩], 3⟩) := by
    simp [refreshToken, postLoginState, validateToken_refresh_ok, hT1,
      findValidRefreshRow, findUserByID, List.find?, huid0, saveRow, createRow]
  refine ⟨by rw [hr1], hne, ?_, ?_⟩
  · rw [hr1]
    simp [refreshToken, validateToken_refresh_ok, hT2, findValidRefreshRow,
      List.find?, beq_eq_false_iff_ne.mpr hne, huid0]
  · rw [hr1]
    simp [refreshToken, validateToken_refresh_ok, hT3, findValidRefreshRow,
      findUserByID, List.find?, beq_eq_false_iff_ne.mpr (Ne.symm hne), huid1,
      RefreshResult.isSuccess]

/-- Witness for C2: Alice logs in at time 100; refreshes at 1000, replays
the consumed token at 1001 and is refused, refreshes the new token at
1002. -/
theorem refresh_single_use_witness :
    100 < 1000 ∧
    1000 < 100 + cfgT.jwtRefreshExpirationHours * 3600 ∧
    1001 < 100 + cfgT.jwtRefreshExpirationHours * 3600 ∧
    1002 < 1000 + cfgT.jwtRefreshExpirationHours * 3600 ∧
    ((refreshToken cfgT (postLoginState alice cfgT 100)
        (generateRefreshToken alice cfgT 100) 1000 false false false).fst
      = .success (generateAccessToken alice cfgT 1000)
          (generateRefreshToken alice cfgT 1000) ∧
    generateRefreshToken alice cfgT 1000 ≠ generateRefreshToken alice cfgT 100 ∧
    (refreshToken cfgT
        (refreshToken cfgT (postLoginState alice cfgT 100)
          (generateRefreshToken alice cfgT 100) 1000 false false false).snd
        (generateRefreshToken alice cfgT 100) 1001 false false false).fst
      = .unauthorized "Refresh token not found, expired, or revoked" ∧
    (refreshToken cfgT
        (refreshToken cfgT (postLoginState alice cfgT 100)
          (generateRefreshToken alice cfgT 100) 1000 false false false).snd
        (generateRefreshToken alice cfgT 1000) 1002 false false false).fst.isSuccess
      = true) :=
  ⟨by decide, by decide, by decide, by decide,
   refresh_single_use alice cfgT 100 1000 1001 1002 (by decide) (by decide)
     (by decide) (by decide)⟩

/-- C3 counterexample: the claim demands that when any rotation step fails
the ledger is left unchanged.  With the store refusing the `Create` of the
new row (auth.go:209), the handler answers a server error after having
already revoked the old row, so the ledger is changed — Alice's token is
consumed with nothing recorded in its place. -/
theorem refresh_partial_failure :
    (refreshToken cfgT st0 tok0 1000 false false true).fst
      = .serverError "Failed to store new refresh token" ∧
    (refreshToken cfgT st0 tok0 1000 false false true).snd ≠ st0 ∧
    (refreshToken cfgT st0 tok0 1000 false false true).snd.rows
      = [{ row0 with isRevoked := true }] := by
  decide

/-- C3 amended: with the revocation `Save` succeeding (the handler ignores
that call's error), a refresh either completes the whole rotation — the
selected live row for the presented token is revoked and exactly one new
row is recorded — or answers a failure, after which no new row exists and
the ledger is either untouched (validation failures) or has exactly the
presented token's row revoked (failures after the revoking `Save`).  The
spec's "on any failure the caller must re-authenticate" holds; "the ledger
is left unchanged" does not. -/
theorem refresh_rotation_outcomes (cfg : Config) (st : ServerState) (T : Token)
    (now : Nat) (generateFails createFails : Bool)
    (hwf : ∀ r ∈ st.rows, r.rowID < st.nextID) :
    ((refreshToken cfg st T now false generateFails createFails).fst.isSuccess
        = false →
      (refreshToken cfg st T now false generateFails createFails).snd.rows.length
        = st.rows.length ∧
      ((refreshToken cfg st T now false generateFails createFails).snd.rows
          = st.rows ∨
        ∃ r ∈ st.rows, r.token = T ∧ r.isRevoked = false ∧
          (refreshToken cfg st T now false generateFails createFails).snd.rows
            = saveRow st.rows { r with isRevoked := true })) ∧
    ((refreshToken cfg st T now false generateFails createFails).fst.isSuccess
        = true →
      ∃ r ∈ st.rows, r.token = T ∧ r.isRevoked = false ∧
        (∀ row ∈ (refreshToken cfg st T now false generateFails createFails).snd.rows,
          row.rowID = r.rowID → row.isRevoked = true) ∧
        (refreshToken cfg st T now false generateFails createFails).snd.rows.length
          = st.rows.length + 1) := by
  set res := refreshToken cfg st T now false generateFails createFails with hres
  rw [refreshToken] at hres
  split at hres
  · constructor
    · intro _
      rw [hres]
      exact ⟨rfl, Or.inl rfl⟩
    · intro hcontra
      rw [hres] at hcontra
      simp [RefreshResult.isSuccess] at hcontra
  · rename_i claims hv
    split at hres
    · constructor
      · intro _
        rw [hres]
        exact ⟨rfl, Or.inl rfl⟩
      · intro hcontra
        rw [hres] at hcontra
        simp [RefreshResult.isSuccess] at hcontra
    · rename_i storedToken hf
      obtain ⟨hmem, htok, hrev, hexp⟩ := findValidRefreshRow_mem hf
      split at hres
      · constructor
        · intro _
          rw [hres]
          exact ⟨rfl, Or.inl rfl⟩
        · intro hcontra
          rw [hres] at hcontra
          simp [RefreshResult.isSuccess] at hcontra
      · rename_i user hu
        simp only [Bool.false_eq_true, if_false] at hres
        by_cases hg : generateFails = true
        · rw [hg] at hres
          simp only [if_true] at hres
          constructor
          · intro _
            rw [hres]
            refine ⟨by simp [saveRow_length],
              Or.inr ⟨storedToken, hmem, htok, hrev, by simp⟩⟩
          · intro hcontra
            rw [hres] at hcontra
            simp [RefreshResult.isSuccess] at hcontra
        · rw [Bool.not_eq_true] at hg
          rw [hg] at hres
          simp only [Bool.false_eq_true, if_false] at hres
          by_cases hc : createFails = true
          · rw [hc] at hres
            simp only [if_true] at hres
            constructor
            · intro _
              rw [hres]
              refine ⟨by simp [saveRow_length],
                Or.inr ⟨storedToken, hmem, htok, hrev, by simp⟩⟩
            · intro hcontra
              rw [hres] at hcontra
              simp [RefreshResult.isSuccess] at hcontra
          · rw [Bool.not_eq_true] at hc
            rw [hc] at hres
            simp only [Bool.false_eq_true, if_false] at hres
            constructor
            · intro hcontra
              rw [hres] at hcontra
              simp [RefreshResult.isSuccess] at hcontra
            · intro _
              refine ⟨storedToken, hmem, htok, hrev, ?_, ?_⟩
              · intro row hrow hid
                rw [hres] at hrow
                simp only [createRow, List.mem_append, List.mem_singleton] at hrow
                rcases hrow with hrow | hrow
                · exact saveRow_revokes st.rows { storedToken with isRevoked := true }
                    rfl row hrow hid
                · rw [hrow] at hid
                  simp only at hid
                  exact absurd (hid ▸ hwf storedToken hmem) (lt_irrefl _)
              · rw [hres]
                simp [createRow, saveRow_length]

/-- Witness for C3 amended: the post-login store has well-formed primary
keys, and the happy-path refresh at time 1000 realizes the success arm. -/
theorem refresh_rotation_outcomes_witness :
    (∀ r ∈ st0.rows, r.rowID < st0.nextID) ∧
    (((refreshToken cfgT st0 tok0 1000 false false false).fst.isSuccess
        = false →
      (refreshToken cfgT st0 tok0 1000 false false false).snd.rows.length
        = st0.rows.length ∧
      ((refreshToken cfgT st0 tok0 1000 false false false).snd.rows
          = st0.rows ∨
        ∃ r ∈ st0.rows, r.token = tok0 ∧ r.isRevoked = false ∧
          (refreshToken cfgT st0 tok0 1000 false false false).snd.rows
            = saveRow st0.rows { r with isRevoked := true })) ∧
    ((refreshToken cfgT st0 tok0 1000 false false false).fst.isSuccess
        = true →
      ∃ r ∈ st0.rows, r.token = tok0 ∧ r.isRevoked = false ∧
        (∀ row ∈ (refreshToken cfgT st0 tok0 1000 false false false).snd.rows,
          row.rowID = r.rowID → row.isRevoked = true) ∧
        (refreshToken cfgT st0 tok0 1000 false false false).snd.rows.length
          = st0.rows.length + 1)) :=
  ⟨by decide, refresh_rotation_outcomes cfgT st0 tok0 1000 false false (by decide)⟩

/-- C7 counterexample: the claim says revocation changes nothing but the
revoked flag, yet logout also forces the row's expiry to the logout time
(auth.go:265): revoking Alice's row at time 5 rewrites its `expiresAt`
from 604900 to 5. -/
theorem logout_rewrites_expiry :
    (logout st0 (some tok0) 5).snd.rows
      = [{ row0 with isRevoked := true, expiresAt := 5 }] ∧
    row0.expiresAt = 604900 ∧ (5 : Nat) ≠ 604900 := by
  decide

/-- C7 amended: across login, refresh and logout, every row of the
post-state ledger is an untouched pre-state row, a pre-state row with only
its revoked flag set (logout additionally forcing its expiry to the logout
time), or a freshly created row under the fresh primary key; and no
pre-state row's primary key disappears.  In particular the token value,
owning identity and creation timestamp of an existing row are never
changed, no row is ever un-revoked, and only logout rewrites an expiry. -/
theorem ledger_row_frame (cfg : Config) (st : ServerState)
    (email : String) (pwd : Password) (T : Token) (req : Option Token)
    (nowL nowR nowO : Nat) (gf cf : Bool) :
    ((∀ r' ∈ (login cfg st email pwd nowL).snd.rows,
        r' ∈ st.rows ∨ r'.rowID = st.nextID) ∧
      ∀ r ∈ st.rows, ∃ r' ∈ (login cfg st email pwd nowL).snd.rows,
        r'.rowID = r.rowID) ∧
    ((∀ r' ∈ (refreshToken cfg st T nowR false gf cf).snd.rows,
        r' ∈ st.rows ∨ (∃ r ∈ st.rows, r' = { r with isRevoked := true }) ∨
          r'.rowID = st.nextID) ∧
      ∀ r ∈ st.rows, ∃ r' ∈ (refreshToken cfg st T nowR false gf cf).snd.rows,
        r'.rowID = r.rowID) ∧
    ((∀ r' ∈ (logout st req nowO).snd.rows,
        r' ∈ st.rows ∨
          ∃ r ∈ st.rows, r' = { r with isRevoked := true, expiresAt := nowO }) ∧
      ∀ r ∈ st.rows, ∃ r' ∈ (logout st req nowO).snd.rows,
        r'.rowID = r.rowID) := by
  refine ⟨?_, ?_, ?_⟩
  · set res := login cfg st email pwd nowL with hres
    rw [login] at hres
    split at hres
    · rw [hres]
      exact ⟨fun r' h => Or.inl h, fun r h => ⟨r, h, rfl⟩⟩
    · split at hres
      · rw [hres]
        exact ⟨fun r' h => Or.inl h, fun r h => ⟨r, h, rfl⟩⟩
      · rw [hres]
        constructor
        · intro r' h
          simp only [createRow, List.mem_append, List.mem_singleton] at h
          rcases h with h | h
          · exact Or.inl h
          · exact Or.inr (by rw [h])
        · intro r h
          refine ⟨r, ?_, rfl⟩
          simp only [createRow, List.mem_append]
          exact Or.inl h
  · set res := refreshToken cfg st T nowR false gf cf with hres
    rw [refreshToken] at hres
    split at hres
    · rw [hres]
      exact ⟨fun r' h => Or.inl h, fun r h => ⟨r, h, rfl⟩⟩
    · split at hres
      · rw [hres]
        exact ⟨fun r' h => Or.inl h, fun r h => ⟨r, h, rfl⟩⟩
      · rename_i claims hv storedToken hf
        split at hres
        · rw [hres]
          exact ⟨fun r' h => Or.inl h, fun r h => ⟨r, h, rfl⟩⟩
        · rename_i user hu
          have hstm := (findValidRefreshRow_mem hf).1
          simp only [Bool.false_eq_true, if_false] at hres
          by_cases hg : gf = true
          · rw [hg] at hres
            simp only [if_true] at hres
            rw [hres]
            constructor
            · intro r' h
              rcases mem_saveRow h with h | h
              · exact Or.inr (Or.inl ⟨storedToken, hstm, h⟩)
              · exact Or.inl h
            · intro r h
              exact saveRow_surjects _ h
          · rw [Bool.not_eq_true] at hg
            rw [hg] at hres
            simp only [Bool.false_eq_true, if_false] at hres
            by_cases hc : cf = true
            · rw [hc] at hres
              simp only [if_true] at hres
              rw [hres]
              constructor
              · intro r' h
                rcases mem_saveRow h with h | h
                · exact Or.inr (Or.inl ⟨storedToken, hstm, h⟩)
                · exact Or.inl h
              · intro r h
                exact saveRow_surjects _ h
            · rw [Bool.not_eq_true] at hc
              rw [hc] at hres
              simp only [Bool.false_eq_true, if_false] at hres
              rw [hres]
              constructor
              · intro r' h
                simp only [createRow, List.mem_append, List.mem_singleton] at h
                rcases h with h | h
                · rcases mem_saveRow h with h | h
                  · exact Or.inr (Or.inl ⟨storedToken, hstm, h⟩)
                  · exact Or.inl h
                · exact Or.inr (Or.inr (by rw [h]))
              · intro r h
                obtain ⟨r', hmem, hid⟩ :=
                  saveRow_surjects { storedToken with isRevoked := true } h
                refine ⟨r', ?_, hid⟩
                simp only [createRow, List.mem_append]
                exact Or.inl hmem
  · set res := logout st req nowO with hres
    rw [logout.eq_def] at hres
    split at hres
    · rw [hres]
      exact ⟨fun r' h => Or.inl h, fun r h => ⟨r, h, rfl⟩⟩
    · rename_i tok
      split at hres
      · rw [hres]
        exact ⟨fun r' h => Or.inl h, fun r h => ⟨r, h, rfl⟩⟩
      · rename_i storedToken hf
        have hstm : storedToken ∈ st.rows := List.mem_of_find?_eq_some hf
        rw [hres]
        constructor
        · intro r' h
          rcases mem_saveRow h with h | h
          · exact Or.inr ⟨storedToken, hstm, h⟩
          · exact Or.inl h
        · intro r h
          exact saveRow_surjects _ h

/-- C8: logout is idempotent — presenting the same nonempty token twice
answers success both times (a missing or already-revoked row is itself the
success path, so revoking a token absent from the ledger is no error), and
a refresh presenting that token afterwards fails.  The refresh part
assumes the token occupies at most one ledger row, as the handler revokes
only the first match. -/
theorem logout_idempotent (cfg : Config) (st : ServerState) (T : Token)
    (now1 now2 now3 : Nat)
    (huniq : (st.rows.filter (fun r => r.token == T)).length ≤ 1) :
    (logout st (some T) now1).fst.isSuccess = true ∧
    (logout (logout st (some T) now1).snd (some T) now2).fst.isSuccess = true ∧
    (refreshToken cfg (logout (logout st (some T) now1).snd (some T) now2).snd
        T now3 false false false).fst.isSuccess = false := by
  have hall := logout_revokes_all st T now1 huniq
  have hnone : findUnrevokedRow (logout st (some T) now1).snd.rows T = none := by
    apply List.find?_eq_none.mpr
    intro row hrow hpred
    simp only [Bool.and_eq_true, beq_iff_eq] at hpred
    have hrv := hall row hrow hpred.1
    rw [hrv] at hpred
    simp at hpred
  have h2 : logout (logout st (some T) now1).snd (some T) now2
      = (.success "Logout successful (token not found or already invalid).",
         (logout st (some T) now1).snd) := by
    rw [logout, hnone]
  refine ⟨logout_always_success st T now1, ?_, ?_⟩
  · rw [h2]
    simp [LogoutResult.isSuccess]
  · rw [h2]
    have hfnone : ∀ uid, findValidRefreshRow (logout st (some T) now1).snd.rows
        T uid now3 = none := by
      intro uid
      apply List.find?_eq_none.mpr
      intro row hrow hpred
      simp only [Bool.and_eq_true, beq_iff_eq] at hpred
      have hrv := hall row hrow hpred.1.1.1
      rw [hrv] at hpred
      simp at hpred
    rw [refreshToken]
    split
    · simp [RefreshResult.isSuccess]
    · rename_i claims hv
      rw [hfnone claims.userID]
      rfl

/-- Witness for C8: in the post-login store, logging Alice's token out at
time 400 and again at 401 both answer success, and a refresh presenting it
at 402 is refused. -/
theorem logout_idempotent_witness :
    (st0.rows.filter (fun r => r.token == tok0)).length ≤ 1 ∧
    ((logout st0 (some tok0) 400).fst.isSuccess = true ∧
      (logout (logout st0 (some tok0) 400).snd (some tok0) 401).fst.isSuccess
        = true ∧
      (refreshToken cfgT
          (logout (logout st0 (some tok0) 400).snd (some tok0) 401).snd
          tok0 402 false false false).fst.isSuccess = false) :=
  ⟨by decide, logout_idempotent cfgT st0 tok0 400 401 402 (by decide)⟩

end Medivuno
